import Mathlib

/-!
Verification of the wallet-starter core: a shallow embedding in Lean 4 of the
transfer validator, balance formatter, address checks, ledger-record
classifier, transfer state machine and SDK error mapper, together with
theorems settling the specified properties.

Modelling conventions:
* JavaScript strings are Lean `String`s (the inputs in scope are ASCII).
* A JavaScript `number` is modelled by `JSNum`: an exact rational for finite
  values plus explicit `nan` / `posInf` / `negInf` constructors, with the
  IEEE comparison rules the embedded code relies on (`NaN` compares false,
  infinities compare as extreme elements).  Finite arithmetic is exact
  rational arithmetic; double rounding is commented where a settled claim
  depends on a value where rounding could matter.
* `undefined` fields of loosely-typed ledger records are `Option.none`.
* Library functions the code calls (`bs58` decoding, `PublicKey` construction,
  `PublicKey.isOnCurve` ed25519 decompression, `toFixed`, `trim`,
  `toLowerCase`, `includes`) are embedded by their documented algorithms,
  executable so that concrete witnesses evaluate.
-/

set_option maxRecDepth 8000

/-! ## JavaScript string primitives -/

/-- Whitespace recognised by `String.prototype.trim` (ASCII fragment). -/
def isJsWhitespace (c : Char) : Bool :=
  c = ' ' ∨ c = '\t' ∨ c = '\n' ∨ c = '\r' ∨ c = Char.ofNat 11 ∨ c = Char.ofNat 12

/-- Model of `String.prototype.trim`: drop leading and trailing whitespace. -/
def jsTrim (s : String) : String :=
  String.mk (((s.data.dropWhile isJsWhitespace).reverse.dropWhile isJsWhitespace).reverse)

/-- Character for a decimal digit: `digitChar d = '0' + d` (used with `d < 10`). -/
def digitChar (d : Nat) : Char := Char.ofNat (48 + d % 10)

/-- Numeric value of a decimal digit character. -/
def charDigit (c : Char) : Nat := c.toNat - 48

/-- Base-10 digits of a natural number, most significant first (fuelled). -/
def natDigitsAux : Nat → Nat → List Nat
  | 0, _ => []
  | fuel + 1, n => if n < 10 then [n] else natDigitsAux fuel (n / 10) ++ [n % 10]

/-- Base-10 digits, most significant first; `natDigits 0 = [0]` as in `toString(0)`. -/
def natDigits (n : Nat) : List Nat := natDigitsAux (n + 1) n

/-- Decimal character rendering of a natural number (model of `Number.toString`
for integers). -/
def natChars (n : Nat) : List Char := (natDigits n).map digitChar

/-! ## base-58 decoding (model of the `bs58` package used by `PublicKey`) -/

/-- The base-58 alphabet. -/
def b58Alphabet : List Char :=
  "123456789ABCDEFGHJKLMNPQRSTUVWXYZabcdefghijkmnopqrstuvwxyz".data

/-- Value of one base-58 character, `none` when the character is not in the
alphabet. -/
def b58Digit (c : Char) : Option Nat := b58Alphabet.findIdx? (· = c)

/-- Numeric value of a base-58 string; `none` when any character is invalid. -/
def b58Value : List Char → Option Nat
  | [] => some 0
  | c :: rest =>
    match b58Digit c, b58Value rest with
    | some d, some acc => some (d * 58 ^ rest.length + acc)
    | _, _ => none

/-- Big-endian bytes of a natural number, no leading zero bytes (fuelled). -/
def natBytesAux : Nat → Nat → List Nat
  | 0, _ => []
  | fuel + 1, n => if n = 0 then [] else natBytesAux fuel (n / 256) ++ [n % 256]

/-- Big-endian byte expansion of a natural number (`[]` for zero). -/
def natBytesBE (n : Nat) : List Nat := natBytesAux (n + 1) n

/-- Model of `bs58.decode`: leading `'1'`s become leading zero bytes, the rest
is the big-endian byte expansion of the base-58 value. -/
def b58DecodeBytes (s : String) : Option (List Nat) :=
  match b58Value s.data with
  | none => none
  | some v => some (List.replicate (s.data.takeWhile (· = '1')).length 0 ++ natBytesBE v)

/-! ## ed25519 decompression check (model of `PublicKey.isOnCurve`) -/

/-- The ed25519 field prime `2^255 - 19`. -/
def edP : Nat := 2 ^ 255 - 19

/-- The ed25519 curve constant `d = -121665 / 121666 mod edP`. -/
def edD : Nat := 37095705934669439343138083508754565189542113879843219016388785533085940283555

/-- Forces a natural number to a numeral before continuing (keeps kernel
evaluation of the recursion below linear in the exponent's bit length). -/
def natForce : Nat → (Nat → Nat) → Nat
  | 0, f => f 0
  | n + 1, f => f (n + 1)

/-- Fuelled square-and-multiply modular exponentiation. -/
def powModAux : Nat → Nat → Nat → Nat → Nat
  | 0, _, _, m => 1 % m
  | fuel + 1, b, e, m =>
    if e = 0 then 1 % m
    else
      natForce ((b * b) % m) fun b2 =>
        natForce (e / 2) fun e2 =>
          let h := powModAux fuel b2 e2 m
          if e % 2 = 1 then (h * b) % m else h

/-- Modular exponentiation (fuel 300 covers every exponent below `2^300`). -/
def powMod (b e m : Nat) : Nat := powModAux 300 (b % m) e m

/-- Little-endian value of a byte list. -/
def bytesToNatLE (bs : List Nat) : Nat := bs.foldr (fun b acc => acc * 256 + b) 0

/-- Model of `PublicKey.isOnCurve`: RFC 8032 point decompression on 32 bytes.
The top bit is the sign of `x`, the rest is `y`; the point is on the curve
when `x^2 = (y^2 - 1) / (d y^2 + 1)` has a square root (and the `x = 0`
encoding does not claim a negative sign). -/
def isOnCurve (bs : List Nat) : Bool :=
  if bs.length ≠ 32 then false
  else
    let n := bytesToNatLE bs
    let sign := n / 2 ^ 255
    let y := n % 2 ^ 255
    if edP ≤ y then false
    else
      let u := (y * y + (edP - 1)) % edP
      let v := (edD * (y * y) + 1) % edP
      let x2 := (u * powMod v (edP - 2) edP) % edP
      let leg := powMod x2 ((edP - 1) / 2) edP
      if leg ≠ 0 ∧ leg ≠ 1 then false
      else if x2 = 0 ∧ sign = 1 then false
      else true

/-! ## `@solana/web3.js` address entry points used by the code -/

/-- Success predicate of `new PublicKey(string)`: base-58 decoding succeeds and
yields exactly 32 bytes.  The constructor performs no curve check. -/
def publicKeyCtorOk (s : String) : Bool :=
  match b58DecodeBytes s with
  | some bs => bs.length = 32
  | none => false

/-- `validateSolanaAddress` from `lib/solana.ts`: empty input is rejected, then
the `PublicKey` constructor must succeed and the 32 bytes must decompress to a
curve point (`PublicKey.isOnCurve`). -/
def validateSolanaAddress (address : String) : Bool :=
  if address = "" then false
  else
    match b58DecodeBytes address with
    | some bs => if bs.length = 32 then isOnCurve bs else false
    | none => false

/-! ## JavaScript numbers -/

/-- A JavaScript `number` as the embedded code observes it: an exact rational,
or one of the non-finite values. -/
inductive JSNum where
  | finite (q : ℚ)
  | nan
  | posInf
  | negInf
deriving DecidableEq

/-- JS `x <= 0` (`NaN` compares false). -/
def jsLeZero : JSNum → Bool
  | .finite q => decide (q ≤ 0)
  | .nan => false
  | .posInf => false
  | .negInf => true

/-- JS `x > 0` (`NaN` compares false). -/
def jsGtZero : JSNum → Bool
  | .finite q => decide (0 < q)
  | .nan => false
  | .posInf => true
  | .negInf => false

/-- JS `x * 1_000_000` (finite values exactly; `NaN`/infinities propagate). -/
def jsMulMillion : JSNum → JSNum
  | .finite q => .finite (q * 1000000)
  | .nan => .nan
  | .posInf => .posInf
  | .negInf => .negInf

/-- JS `x > b` against an integer balance (`NaN` compares false). -/
def jsGtInt : JSNum → ℤ → Bool
  | .finite q, b => decide ((b : ℚ) < q)
  | .nan, _ => false
  | .posInf, _ => true
  | .negInf, _ => false

/-- JS `x <= b` against an integer balance (`NaN` compares false). -/
def jsLeInt : JSNum → ℤ → Bool
  | .finite q, b => decide (q ≤ (b : ℚ))
  | .nan, _ => false
  | .posInf, _ => false
  | .negInf, _ => true

/-- JS `x || 0`: `NaN` and `0` are falsy and replaced by `0`. -/
def jsOrZero : JSNum → JSNum
  | .finite q => if q = 0 then .finite 0 else .finite q
  | .nan => .finite 0
  | .posInf => .posInf
  | .negInf => .negInf

/-! ## the transfer validator (`validateTransfer` in `lib/lazorkit.ts`) -/

def msgRecipientRequired : String := "Recipient address is required."

def msgInvalidRecipient : String := "Invalid recipient address format."

def msgAmountMustBePositive : String := "Amount must be greater than zero."

def msgInsufficientBalance : String := "Insufficient USDC balance for this transfer."

/-- `validateTransfer(recipient, amount, balance)`: returns the error message of
the first failing check, `none` when the transfer is admissible.  The balance
comparison multiplies the amount by `10^6` and compares directly, without
flooring — exactly as the source line `amount * 1_000_000 > balance`. -/
def validateTransfer (recipient : String) (amount : JSNum) (balance : ℤ) : Option String :=
  if recipient = "" ∨ jsTrim recipient = "" then some msgRecipientRequired
  else if ¬ publicKeyCtorOk recipient then some msgInvalidRecipient
  else if jsLeZero amount then some msgAmountMustBePositive
  else if jsGtInt (jsMulMillion amount) balance then some msgInsufficientBalance
  else none

/-- The submission path's conversion (`Math.floor(parseFloat(amount) * 1_000_000)`
in `executeTransfer`), generalised over the scale: multiply by `10^scale` and
floor.  This is also the spec's `to_smallest_units` rule. -/
def toSmallestUnits (q : ℚ) (scale : ℕ) : ℤ := ⌊q * 10 ^ scale⌋

/-! ## balance formatting (`formatBalance` in `lib/solana.ts`) -/

/-- The two assets the system displays. -/
inductive Token where
  | SOL
  | USDC
deriving DecidableEq

/-- `LAMPORTS_PER_SOL` from `@solana/web3.js`. -/
def LAMPORTS_PER_SOL : ℕ := 1000000000

/-- `USDC_DECIMALS`: USDC has 6 decimal places. -/
def USDC_DECIMALS : ℕ := 6

/-- `SOL_DISPLAY_DECIMALS`: SOL is displayed with 4 decimal places. -/
def SOL_DISPLAY_DECIMALS : ℕ := 4

/-- `USDC_DISPLAY_DECIMALS`: USDC is displayed with 2 decimal places. -/
def USDC_DISPLAY_DECIMALS : ℕ := 2

/-- Display precision used by `formatBalance` per token. -/
def displayDecimals : Token → ℕ
  | .SOL => SOL_DISPLAY_DECIMALS
  | .USDC => USDC_DISPLAY_DECIMALS

/-- The asset's decimal scale (9 for the native coin, 6 for USDC). -/
def tokenScale : Token → ℕ
  | .SOL => 9
  | .USDC => USDC_DECIMALS

/-- Digit selection of `Number.prototype.toFixed` for non-negative values:
the integer `n` with `n / 10^d` closest to the value, ties to the larger `n`. -/
def roundHalfUp (x : ℚ) : ℤ := ⌊x + 1 / 2⌋

/-- Fixed-length fraction rendering: the `d` base-10 digits of `v` (which is
`< 10^d`), most significant first. -/
def fracChars (v d : ℕ) : List Char :=
  (List.range d).map fun i => digitChar (v / 10 ^ (d - 1 - i) % 10)

/-- Model of `x.toFixed(d)` for non-negative finite `x` below the exponential
threshold: round to `d` fractional digits and print `whole.frac` with exactly
`d` fraction digits. -/
def toFixed (x : ℚ) (d : ℕ) : String :=
  let n := (roundHalfUp (x * 10 ^ d)).toNat
  String.mk (natChars (n / 10 ^ d) ++ '.' :: fracChars (n % 10 ^ d) d)

/-- `formatBalance(amount, token)`: SOL renders `amount / LAMPORTS_PER_SOL` to
4 decimal places, USDC renders `amount / 10^USDC_DECIMALS` to 2. -/
def formatBalance (amount : ℕ) (token : Token) : String :=
  match token with
  | .SOL => toFixed ((amount : ℚ) / LAMPORTS_PER_SOL) SOL_DISPLAY_DECIMALS
  | .USDC => toFixed ((amount : ℚ) / 10 ^ USDC_DECIMALS) USDC_DISPLAY_DECIMALS

/-- Number of characters after the last `'.'` of a string. -/
def digitsAfterDot (s : String) : ℕ := (s.data.reverse.takeWhile (· ≠ '.')).length

/-! ## decimal parsing (model of `parseFloat` on canonical decimal numerals) -/

/-- Value of a run of decimal digit characters, most significant first. -/
def parseDigitsVal (cs : List Char) : ℕ := cs.foldl (fun a c => a * 10 + charDigit c) 0

/-- Exact value of a canonical decimal numeral `digits[.digits]`.  This is the
rational `parseFloat` approximates; the round-trip claims are settled over
this exact semantics. -/
def parseDecimal (s : String) : ℚ :=
  let intPart := s.data.takeWhile (· ≠ '.')
  let fracPart := (s.data.dropWhile (· ≠ '.')).drop 1
  (parseDigitsVal intPart : ℚ) + (parseDigitsVal fracPart : ℚ) / 10 ^ fracPart.length

/-- Is the string a canonical decimal numeral (digits with at most one dot,
starting with a digit)? -/
def isCanonicalDecimal (s : String) : Bool :=
  match s.data with
  | [] => false
  | c :: _ =>
    ('0' ≤ c ∧ c ≤ '9') ∧ s.data.all (fun x => ('0' ≤ x ∧ x ≤ '9') ∨ x = '.') ∧
      (s.data.filter (· = '.')).length ≤ 1

/-- Model of `parseFloat` restricted to the inputs this development evaluates:
canonical decimal numerals parse exactly, everything else is `NaN`.  (The full
`parseFloat` also accepts signs, exponents and junk suffixes; no settled claim
depends on those inputs.) -/
def jsParseFloat (s : String) : JSNum :=
  if isCanonicalDecimal s then .finite (parseDecimal s) else .nan

/-- Round trip of the specified property: format a smallest-unit amount, parse
the display string back, convert to smallest units at the asset's scale. -/
def roundTripUnits (n : ℕ) (t : Token) : ℤ :=
  toSmallestUnits (parseDecimal (formatBalance n t)) (tokenScale t)

/-! ## ledger record classifier (`parseTransaction` in `lib/solana.ts`) -/

/-- The loosely-typed `parsed.info` payload of a parsed instruction; absent
fields are `none` (JS `undefined`). -/
structure TransferInfo where
  source : Option String
  destination : Option String
  authority : Option String
  lamports : ℤ
  amount : ℤ
deriving DecidableEq

/-- The `parsed` payload of an instruction: its `type` tag and `info`. -/
structure ParsedPayload where
  ptype : String
  info : TransferInfo
deriving DecidableEq

/-- One instruction of a raw record: the owning `program` tag and the optional
`parsed` payload (`none` when `'parsed' in instruction` fails). -/
structure RawInstruction where
  program : String
  parsed : Option ParsedPayload
deriving DecidableEq

/-- The `message` of a raw transaction envelope. -/
structure RawMessage where
  instructions : List RawInstruction
deriving DecidableEq

/-- The raw transaction envelope (`tx.transaction`). -/
structure RawEnvelope where
  signatures : List String
  message : RawMessage
deriving DecidableEq

/-- The raw record's metadata (`tx.meta`); `err` is the truthiness of
`tx.meta.err`. -/
structure RawMeta where
  err : Bool
deriving DecidableEq

/-- A raw record as fetched from the ledger (`ParsedTransactionWithMeta`):
`meta` and `transaction` can be absent, `blockTime` is optional seconds. -/
structure RawRecord where
  meta : Option RawMeta
  transaction : Option RawEnvelope
  blockTime : Option ℤ
deriving DecidableEq

/-- Direction of a classified transaction. -/
inductive TxType where
  | send
  | receive
  | unknown
deriving DecidableEq

/-- Status of a classified transaction. -/
inductive TxStatus where
  | confirmed
  | pending
  | failed
deriving DecidableEq

/-- The canonical `Transaction` record the classifier produces.  `signature`
is `none` when the envelope has no signatures (JS `undefined`); `counterparty`
is `none` when the instruction lacked the relevant field. -/
structure TransactionRec where
  signature : Option String
  ttype : TxType
  amount : ℤ
  token : Token
  counterparty : Option String
  timestamp : ℤ
  status : TxStatus
deriving DecidableEq

/-- JS `a || b` on possibly-undefined strings: `a` unless it is `undefined` or
the empty string (both falsy). -/
def jsOrStr (a b : Option String) : Option String :=
  match a with
  | some s => if s = "" then b else some s
  | none => b

/-- The timestamp rule of `parseTransaction`:
`tx.blockTime ? tx.blockTime * 1000 : Date.now()` — note that `blockTime = 0`
is falsy.  `now` is the value `Date.now()` returns at classification time. -/
def jsTimestampOf (now : ℤ) : Option ℤ → ℤ
  | some bt => if bt ≠ 0 then bt * 1000 else now
  | none => now

/-- The instruction scan of `parseTransaction`: the first instruction whose
`parsed.type` is `"transfer"` under the `system` or `spl-token` program
produces the record; all other instructions are skipped. -/
def scanInstructions (walletAddress : String) (sig : Option String) (timestamp : ℤ)
    (status : TxStatus) : List RawInstruction → Option TransactionRec
  | [] => none
  | i :: rest =>
    match i.parsed with
    | some p =>
      if p.ptype = "transfer" ∧ i.program = "system" then
        let isSend := p.info.source = some walletAddress
        some { signature := sig
               ttype := if isSend then .send else .receive
               amount := p.info.lamports
               token := .SOL
               counterparty := if isSend then p.info.destination else p.info.source
               timestamp := timestamp
               status := status }
      else if p.ptype = "transfer" ∧ i.program = "spl-token" then
        let isSend := p.info.authority = some walletAddress ∨ p.info.source = some walletAddress
        some { signature := sig
               ttype := if isSend then .send else .receive
               amount := p.info.amount
               token := .USDC
               counterparty := if isSend then p.info.destination
                               else jsOrStr p.info.authority p.info.source
               timestamp := timestamp
               status := status }
      else scanInstructions walletAddress sig timestamp status rest
    | none => scanInstructions walletAddress sig timestamp status rest

/-- `parseTransaction(tx, walletAddress)`: `none` when `meta` or `transaction`
is absent; otherwise the first recognised transfer instruction classifies the
record, and a record with no recognised transfer is surfaced as `unknown` with
amount `0` and empty counterparty.  `now` models `Date.now()`. -/
def parseTransaction (now : ℤ) (tx : RawRecord) (walletAddress : String) :
    Option TransactionRec :=
  match tx.meta, tx.transaction with
  | some m, some envelope =>
    let sig := envelope.signatures.head?
    let timestamp := jsTimestampOf now tx.blockTime
    let status := if m.err then TxStatus.failed else TxStatus.confirmed
    match scanInstructions walletAddress sig timestamp status envelope.message.instructions with
    | some r => some r
    | none =>
      some { signature := sig
             ttype := .unknown
             amount := 0
             token := .SOL
             counterparty := some ""
             timestamp := timestamp
             status := status }
  | _, _ => none

/-- Does the instruction match a known transfer shape (the condition under
which the scan stops)? -/
def isTransferShaped (i : RawInstruction) : Bool :=
  match i.parsed with
  | some p => p.ptype = "transfer" ∧ (i.program = "system" ∨ i.program = "spl-token")
  | none => false

/-! ## the GaslessTransfer component state machine -/

/-- The component's `TransferState` union. -/
inductive TState where
  | idle
  | confirming
  | processing
  | success
  | error
deriving DecidableEq

/-- The component's state variables (`useState` hooks of `GaslessTransfer`),
together with the number of live failure toasts whose `Retry` action is the
component's `() => setTransferState('confirming')` callback.  `showError` in
`executeTransfer`'s `catch` creates such a toast; `ToastProvider` keeps it
alive until its 4-second auto-dismiss, its close button, or a click of its
`Retry` action, and the toast container is rendered after the modals at the
same z-index, so the `Retry` button stays clickable above them.  `resetForm`
does not dismiss toasts. -/
structure CState where
  recipient : String
  amount : String
  transferState : TState
  validationError : Option String
  transactionError : Option String
  txSignature : Option String
  liveRetryToasts : ℕ
deriving DecidableEq

/-- The initial component state. -/
def initialCState : CState :=
  { recipient := ""
    amount := ""
    transferState := .idle
    validationError := none
    transactionError := none
    txSignature := none
    liveRetryToasts := 0 }

/-- `isFormValid()`: non-blank recipient, on-curve address, positive parsed
amount, and amount within balance (`amountNum * 1_000_000 <= usdcBalance`). -/
def isFormValid (usdcBalance : ℤ) (st : CState) : Bool :=
  jsTrim st.recipient ≠ "" ∧ validateSolanaAddress st.recipient ∧
    jsGtZero (jsParseFloat st.amount) ∧
    jsLeInt (jsMulMillion (jsParseFloat st.amount)) usdcBalance

/-- `validateForm()`'s stored result: cleared when both inputs are empty, else
`validateTransfer(recipient, parseFloat(amount) || 0, usdcBalance)`. -/
def validateFormResult (usdcBalance : ℤ) (st : CState) : Option String :=
  if st.recipient = "" ∧ st.amount = "" then none
  else validateTransfer st.recipient (jsOrZero (jsParseFloat st.amount)) usdcBalance

/-- The events that drive the component. -/
inductive CompEvent where
  | setRecipient (value : String)
  | setAmount (value : String)
  | runValidation
  | submit
  | cancelConfirm
  | confirmNoWallet
  | beginProcessing
  | finishSuccess (sig : String)
  | finishFailure (msg : String)
  | successDone
  | errorCancel
  | errorRetry
  | toastExpire
  | toastRetry
deriving DecidableEq

/-- One transition of the `GaslessTransfer` component.  Each constructor
corresponds to one `setState` site in the source, guarded by the state in
which its UI affordance is rendered and enabled:

* `setRecipient` / `setAmount` — the inputs (disabled while `processing`);
* `runValidation` — the `useEffect` that stores `validateForm()`'s result;
* `submit` — `handleSubmit` (the form is interactable in `idle`; every other
  non-`processing` state is covered by a full-screen modal);
* `cancelConfirm` / `confirmNoWallet` / `beginProcessing` — the confirmation
  modal's buttons and the guard at the top of `executeTransfer`
  (the `!smartWalletPubkey` branch sets the error state without a toast);
* `finishSuccess` / `finishFailure` — `executeTransfer`'s success path
  (`setTxSignature` then `setTransferState('success')`; `showSuccess` has no
  action button) and its `catch`, which also calls
  `showError(message, () => setTransferState('confirming'))`, creating a live
  retry toast (the post-signature calls `showSuccess`/`onTransferComplete`
  are modelled as non-throwing: the former is a toast enqueue, the latter
  calls an async callback whose rejection cannot reach this `catch`);
* `successDone` / `errorCancel` — the `resetForm` buttons; `resetForm` resets
  the six state hooks but does not dismiss live toasts;
* `errorRetry` — the error modal's `Try Again` (rendered only in `error`);
* `toastExpire` — a live retry toast's 4-second auto-dismiss or close button;
* `toastRetry` — a click of a live retry toast's `Retry` action:
  `handleAction` runs `onAction()` — `setTransferState('confirming')`, with
  no state guard — and dismisses that toast.  It fires from any state,
  including `success` with `txSignature` still set. -/
inductive CompStep (usdcBalance : ℤ) : CompEvent → CState → CState → Prop
  | setRecipient (st : CState) (v : String) (h : st.transferState ≠ .processing) :
      CompStep usdcBalance (.setRecipient v) st { st with recipient := v }
  | setAmount (st : CState) (v : String) (h : st.transferState ≠ .processing) :
      CompStep usdcBalance (.setAmount v) st { st with amount := v }
  | runValidation (st : CState) :
      CompStep usdcBalance .runValidation st
        { st with validationError := validateFormResult usdcBalance st }
  | submit (st : CState) (h₁ : st.transferState = .idle)
      (h₂ : isFormValid usdcBalance st = true) :
      CompStep usdcBalance .submit st { st with transferState := .confirming }
  | cancelConfirm (st : CState) (h : st.transferState = .confirming) :
      CompStep usdcBalance .cancelConfirm st { st with transferState := .idle }
  | confirmNoWallet (st : CState) (h : st.transferState = .confirming) :
      CompStep usdcBalance .confirmNoWallet st
        { st with transactionError := some "Wallet not connected", transferState := .error }
  | beginProcessing (st : CState) (h : st.transferState = .confirming) :
      CompStep usdcBalance .beginProcessing st
        { st with transferState := .processing, transactionError := none }
  | finishSuccess (st : CState) (sig : String) (h : st.transferState = .processing) :
      CompStep usdcBalance (.finishSuccess sig) st
        { st with txSignature := some sig, transferState := .success }
  | finishFailure (st : CState) (msg : String) (h : st.transferState = .processing) :
      CompStep usdcBalance (.finishFailure msg) st
        { st with transactionError := some msg, transferState := .error,
                  liveRetryToasts := st.liveRetryToasts + 1 }
  | successDone (st : CState) (h : st.transferState = .success) :
      CompStep usdcBalance .successDone st
        { initialCState with liveRetryToasts := st.liveRetryToasts }
  | errorCancel (st : CState) (h : st.transferState = .error) :
      CompStep usdcBalance .errorCancel st
        { initialCState with liveRetryToasts := st.liveRetryToasts }
  | errorRetry (st : CState) (h : st.transferState = .error) :
      CompStep usdcBalance .errorRetry st { st with transferState := .confirming }
  | toastExpire (st : CState) (h : 0 < st.liveRetryToasts) :
      CompStep usdcBalance .toastExpire st
        { st with liveRetryToasts := st.liveRetryToasts - 1 }
  | toastRetry (st : CState) (h : 0 < st.liveRetryToasts) :
      CompStep usdcBalance .toastRetry st
        { st with transferState := .confirming, liveRetryToasts := st.liveRetryToasts - 1 }

/-- States reachable from the initial component state through events permitted
by `allowed`. -/
inductive CompReachableVia (usdcBalance : ℤ) (allowed : CompEvent → Prop) : CState → Prop
  | init : CompReachableVia usdcBalance allowed initialCState
  | step {e : CompEvent} {s s' : CState} : CompReachableVia usdcBalance allowed s →
      allowed e → CompStep usdcBalance e s s' → CompReachableVia usdcBalance allowed s'

/-- States reachable from the initial component state (all events). -/
def CompReachable (usdcBalance : ℤ) (s : CState) : Prop :=
  CompReachableVia usdcBalance (fun _ => True) s

/-! ## SDK error mapping (`mapError` / `mapSDKError` in `lib/lazorkit.ts`) -/

/-- ASCII lower-casing of one character (`String.prototype.toLowerCase` on the
ASCII inputs in scope). -/
def asciiLowerChar (c : Char) : Char :=
  if 'A' ≤ c ∧ c ≤ 'Z' then Char.ofNat (c.toNat + 32) else c

/-- ASCII lower-casing of a string. -/
def asciiLower (s : String) : String := String.mk (s.data.map asciiLowerChar)

/-- Model of `String.prototype.includes`: some suffix of `l` starts with
`pat`. -/
def listIncl : List Char → List Char → Bool
  | [], pat => pat.isEmpty
  | c :: t, pat => pat.isPrefixOf (c :: t) || listIncl t pat

/-- `s.includes(sub)`. -/
def strIncludes (s sub : String) : Bool := listIncl s.data sub.data

/-- The five `AuthErrorCode` values. -/
inductive AuthErrorCode where
  | USER_CANCELLED
  | BROWSER_UNSUPPORTED
  | CREDENTIAL_INVALID
  | NETWORK_ERROR
  | UNKNOWN
deriving DecidableEq

/-- A structured `AuthError`; `original` carries the raw message of the input
error (`originalError` in the source). -/
structure AuthError where
  code : AuthErrorCode
  message : String
  original : String
deriving DecidableEq

/-- Keyword test of the `USER_CANCELLED` branch (on the lowercased message). -/
def hasCancelKw (raw : String) : Bool :=
  let m := asciiLower raw
  strIncludes m "cancel" || strIncludes m "abort" || strIncludes m "user denied"

/-- Keyword test of the `CREDENTIAL_INVALID` branch. -/
def hasCredentialKw (raw : String) : Bool :=
  let m := asciiLower raw
  strIncludes m "invalid" || strIncludes m "not found" || strIncludes m "no credential"

/-- Keyword test of the `BROWSER_UNSUPPORTED` branch. -/
def hasBrowserKw (raw : String) : Bool :=
  let m := asciiLower raw
  strIncludes m "not supported" || strIncludes m "webauthn"

/-- Keyword test of the `NETWORK_ERROR` branch. -/
def hasNetworkKw (raw : String) : Bool :=
  let m := asciiLower raw
  strIncludes m "network" || strIncludes m "fetch" || strIncludes m "timeout" ||
    strIncludes m "service unavailable" || strIncludes m "503" ||
    strIncludes m "failed to get payer"

/-- `mapError(error)`: the input is first coerced to an `Error`
(`error instanceof Error ? error : new Error(String(error))`), so the function
is total in the coerced message, modelled here as `rawMessage`.  The lowercased
message is tested against the keyword groups in a fixed order and the first
match decides the code. -/
def mapError (rawMessage : String) : AuthError :=
  if hasCancelKw rawMessage then
    { code := .USER_CANCELLED
      message := "Authentication cancelled. Click to try again."
      original := rawMessage }
  else if hasCredentialKw rawMessage then
    { code := .CREDENTIAL_INVALID
      message := "Passkey not recognized. Would you like to create a new wallet?"
      original := rawMessage }
  else if hasBrowserKw rawMessage then
    { code := .BROWSER_UNSUPPORTED
      message := "Your browser doesn\x27t support passkeys. Please use Chrome, Safari, or Edge."
      original := rawMessage }
  else if hasNetworkKw rawMessage then
    { code := .NETWORK_ERROR
      message := "The Lazorkit paymaster service is currently unavailable. Please try again in a few minutes."
      original := rawMessage }
  else
    { code := .UNKNOWN
      message := "An unexpected error occurred. Please try again."
      original := rawMessage }

/-- `mapSDKError` re-exports `mapError`. -/
def mapSDKError (rawMessage : String) : AuthError := mapError rawMessage

/-! ## the spec's ordered check cascade (for the ordering claim) -/

/-- First failure of an ordered list of `(check, error)` pairs. -/
def firstFailure : List (Bool × String) → Option String
  | [] => none
  | (ok, msg) :: rest => if ok then firstFailure rest else some msg

/-- The four checks of the validator in the spec's order, each paired with its
error: trimmed recipient non-empty, recipient decodes as an address, amount
strictly positive, amount in smallest units at most the balance.  (Whether the
fourth check's conversion should floor is settled separately; here it is the
code's `amount * 10^6`.) -/
def orderedChecks (recipient : String) (amount : ℚ) (balance : ℤ) : List (Bool × String) :=
  [ (jsTrim recipient ≠ "", msgRecipientRequired),
    (publicKeyCtorOk recipient, msgInvalidRecipient),
    (decide (0 < amount), msgAmountMustBePositive),
    (decide (amount * 1000000 ≤ (balance : ℚ)), msgInsufficientBalance) ]

/-- The validator as the spec describes it: the error of the first failing
check in the fixed order. -/
def specOrderedValidate (recipient : String) (amount : ℚ) (balance : ℤ) : Option String :=
  firstFailure (orderedChecks recipient amount balance)

/-! ## concrete inputs used by counterexamples and witnesses -/

/-- A base-58 string decoding to 32 bytes that lie on the ed25519 curve
(little-endian value 1, `y = 1` decompresses). -/
def onCurveAddr : String := "4uQeVj5tqViQh7yWWGStvkEG1Zmhx6uasJtWCJziofM"

/-- A base-58 string decoding to 32 bytes that are NOT on the ed25519 curve
(little-endian value 2: `x^2 = 3 / (4d + 1)` is a non-residue).  Off-curve
32-byte values are exactly the program-derived (PDA) addresses the transfer
flow deliberately supports as recipients. -/
def offCurveAddr : String := "8opHzTAnfzRpPEx21XtnrVTX28YQuCpAjcn1PczScKh"

/-- A raw record with metadata and an envelope but no recognised transfer
instruction, with `blockTime = 5` seconds. -/
def rawRecordUnknown : RawRecord :=
  { meta := some { err := false }
    transaction := some { signatures := ["sigX"], message := { instructions := [] } }
    blockTime := some 5 }

/-- The same record without a `blockTime`. -/
def rawRecordNoBlockTime : RawRecord :=
  { meta := some { err := false }
    transaction := some { signatures := ["sigX"], message := { instructions := [] } }
    blockTime := none }

/-- A raw record with no metadata. -/
def rawRecordNoMeta : RawRecord :=
  { meta := none
    transaction := some { signatures := ["sigY"], message := { instructions := [] } }
    blockTime := some 7 }

/-- A raw record whose only instruction is a non-transfer instruction. -/
def rawRecordNonTransfer : RawRecord :=
  { meta := some { err := true }
    transaction := some
      { signatures := ["sigZ"]
        message :=
          { instructions :=
              [{ program := "spl-token"
                 parsed := some
                   { ptype := "mintTo"
                     info := { source := none, destination := none, authority := none,
                               lamports := 0, amount := 3 } } }] } }
    blockTime := some 11 }

/-- The record the classifier produces for `rawRecordUnknown`. -/
def c7rec : TransactionRec :=
  { signature := some "sigX"
    ttype := .unknown
    amount := 0
    token := .SOL
    counterparty := some ""
    timestamp := 5000
    status := .confirmed }

/-- A component state in `confirming`, reachable without any toast retry
(used to witness the amended state machine invariant). -/
def c9state : CState :=
  { recipient := onCurveAddr
    amount := "10"
    transferState := .confirming
    validationError := none
    transactionError := none
    txSignature := none
    liveRetryToasts := 0 }

/-- A reachable component state in `confirming` that still holds the previous
successful attempt's signature: it is reached by failing once (leaving a live
retry toast), retrying through the error modal, succeeding, and then clicking
the still-live toast's `Retry`. -/
def c9badState : CState :=
  { recipient := onCurveAddr
    amount := "10"
    transferState := .confirming
    validationError := none
    transactionError := none
    txSignature := some "sig1"
    liveRetryToasts := 0 }

/-! ## validator theorems -/

/-- `jsTrim` of the empty string is empty. -/
theorem jsTrim_empty : jsTrim "" = "" := rfl

/-- C1 (code bug): the validator's balance check does not use the submission
path's floored smallest-unit conversion.  At recipient `onCurveAddr` (which
passes address validation), amount `1.0000005` and balance `1000000`, the
floored smallest-unit value `toSmallestUnits` — the rule `executeTransfer`
submits with — equals the balance exactly, so the claim (and §4.3 of the
spec) requires `Ok`; but `validateTransfer` compares the unfloored product
`1000000.5 > 1000000` and returns `InsufficientBalance`.  (In IEEE doubles
the product evaluates to `1000000.5000000001`, on the same side of the
balance, so exact-rational and double semantics agree here.) -/
theorem c1_insufficient_balance_unfloored :
    validateSolanaAddress onCurveAddr = true ∧
    toSmallestUnits (2000001 / 2000000) 6 = 1000000 ∧
    validateTransfer onCurveAddr (JSNum.finite (2000001 / 2000000)) 1000000 =
      some msgInsufficientBalance := by
  refine ⟨by decide, ?_, ?_⟩
  · unfold toSmallestUnits
    norm_num
  · have h1 : ¬(onCurveAddr = "" ∨ jsTrim onCurveAddr = "") := by decide
    have h2 : publicKeyCtorOk onCurveAddr = true := by decide
    have h3 : jsLeZero (JSNum.finite (2000001 / 2000000)) = false := by
      simp only [jsLeZero, decide_eq_false_iff_not]
      norm_num
    have h4 : jsGtInt (jsMulMillion (JSNum.finite (2000001 / 2000000))) 1000000 = true := by
      simp only [jsMulMillion, jsGtInt, decide_eq_true_eq]
      norm_num
    unfold validateTransfer
    rw [if_neg h1, if_neg (by simp [h2]), if_neg (by simp [h3]), if_pos (by simp [h4])]

/-- C2: for decimal inputs, `validateTransfer` returns exactly the error of the
first failing check of the spec's ordered cascade (trimmed recipient
non-empty, address decodes, amount positive, converted amount at most the
balance).  Amounts range over the decimals of the validator's contract;
non-finite doubles are settled separately with the positivity claim. -/
theorem c2_first_failing_check_wins (r : String) (q : ℚ) (b : ℤ) :
    validateTransfer r (JSNum.finite q) b = specOrderedValidate r q b := by
  unfold validateTransfer specOrderedValidate orderedChecks
  by_cases h0 : r = ""
  · simp [h0, jsTrim_empty, firstFailure]
  · by_cases h1 : jsTrim r = ""
    · simp [h0, h1, firstFailure]
    · by_cases h2 : publicKeyCtorOk r
      · by_cases h3 : q ≤ 0
        · have h3' : ¬0 < q := not_lt.mpr h3
          simp [h0, h1, h2, h3, h3', jsLeZero, firstFailure]
        · have h3' : 0 < q := not_le.mp h3
          by_cases h4 : q * 1000000 ≤ (b : ℚ)
          · have h4' : ¬((b : ℚ) < q * 1000000) := not_lt.mpr h4
            simp [h0, h1, h2, h3, h3', h4, h4', jsLeZero, jsGtInt, jsMulMillion, firstFailure]
          · have h4' : (b : ℚ) < q * 1000000 := not_le.mp h4
            simp [h0, h1, h2, h3, h3', h4, h4', jsLeZero, jsGtInt, jsMulMillion, firstFailure]
      · simp [h0, h1, h2, firstFailure]

/-- C6 (code bug): the positivity check `amount <= 0` does not reject the
non-finite amounts.  `NaN` fails every comparison, passes all checks and
yields `Ok` (`none`); `+∞` is rejected, but as `InsufficientBalance`; only
finite non-positive amounts and `-∞` produce `AmountMustBePositive` as the
claim requires for all of them. -/
theorem c6_nonfinite_amounts_not_rejected_as_nonpositive :
    validateTransfer onCurveAddr JSNum.nan 100000000 = none ∧
    validateTransfer onCurveAddr JSNum.posInf 100000000 = some msgInsufficientBalance ∧
    validateTransfer onCurveAddr (JSNum.finite 0) 100000000 = some msgAmountMustBePositive ∧
    validateTransfer onCurveAddr (JSNum.finite (-5)) 100000000 = some msgAmountMustBePositive ∧
    validateTransfer onCurveAddr JSNum.negInf 100000000 = some msgAmountMustBePositive := by
  refine ⟨?_, ?_, ?_, ?_, ?_⟩ <;> decide

/-! ## error mapper theorems -/

/-- C10: `mapSDKError` (via `mapError`) is total — every input's coerced
message yields an `AuthError` whose code is one of the five values — and
deterministic over the fixed keyword precedence: cancellation keywords win,
then credential keywords, then browser-support keywords, then network
keywords, with `UNKNOWN` as the catch-all. -/
theorem c10_error_mapping_total_ordered (s : String) :
    (mapSDKError s).code ∈
      [AuthErrorCode.USER_CANCELLED, AuthErrorCode.CREDENTIAL_INVALID,
       AuthErrorCode.BROWSER_UNSUPPORTED, AuthErrorCode.NETWORK_ERROR,
       AuthErrorCode.UNKNOWN] ∧
    (hasCancelKw s = true → (mapSDKError s).code = AuthErrorCode.USER_CANCELLED) ∧
    (hasCancelKw s = false → hasCredentialKw s = true →
      (mapSDKError s).code = AuthErrorCode.CREDENTIAL_INVALID) ∧
    (hasCancelKw s = false → hasCredentialKw s = false → hasBrowserKw s = true →
      (mapSDKError s).code = AuthErrorCode.BROWSER_UNSUPPORTED) ∧
    (hasCancelKw s = false → hasCredentialKw s = false → hasBrowserKw s = false →
      hasNetworkKw s = true → (mapSDKError s).code = AuthErrorCode.NETWORK_ERROR) ∧
    (hasCancelKw s = false → hasCredentialKw s = false → hasBrowserKw s = false →
      hasNetworkKw s = false → (mapSDKError s).code = AuthErrorCode.UNKNOWN) := by
  unfold mapSDKError mapError
  by_cases hc : hasCancelKw s
  · simp [hc]
  · by_cases hi : hasCredentialKw s
    · simp [hc, hi]
    · by_cases hb : hasBrowserKw s
      · simp [hc, hi, hb]
      · by_cases hn : hasNetworkKw s
        · simp [hc, hi, hb, hn]
        · simp [hc, hi, hb, hn]

/-- C10 witness: a message containing both `"invalid"` and `"network"` maps to
`CREDENTIAL_INVALID` (the earlier category), and one containing both
`"cancel"` and `"not supported"` maps to `USER_CANCELLED`. -/
theorem c10_error_mapping_witness :
    (mapSDKError "Invalid request: network down").code = AuthErrorCode.CREDENTIAL_INVALID ∧
    (mapSDKError "User Cancelled; passkeys not supported").code =
      AuthErrorCode.USER_CANCELLED :=
  ⟨(c10_error_mapping_total_ordered "Invalid request: network down").2.2.1
      (by decide) (by decide),
   (c10_error_mapping_total_ordered "User Cancelled; passkeys not supported").2.1 (by decide)⟩

/-! ## address-validation theorems -/

/-- C5 (counterexample): `offCurveAddr` is valid base-58, decodes to exactly
32 bytes that are not on the curve — yet `validateTransfer` with it as the
recipient and an otherwise admissible amount and balance returns `Ok`
(`none`), not `InvalidRecipient`: the `PublicKey` constructor used by the
validator performs no curve check. -/
theorem c5_counterexample_offcurve_accepted :
    b58DecodeBytes offCurveAddr = some (2 :: List.replicate 31 0) ∧
    (2 :: List.replicate 31 0 : List ℕ).length = 32 ∧
    isOnCurve (2 :: List.replicate 31 0) = false ∧
    validateTransfer offCurveAddr (JSNum.finite 10) 100000000 = none ∧
    validateTransfer offCurveAddr (JSNum.finite 10) 100000000 ≠ some msgInvalidRecipient := by
  have h1 : ¬(offCurveAddr = "" ∨ jsTrim offCurveAddr = "") := by decide
  have h2 : publicKeyCtorOk offCurveAddr = true := by decide
  have h3 : jsLeZero (JSNum.finite 10) = false := by decide
  have h4 : jsGtInt (jsMulMillion (JSNum.finite 10)) 100000000 = false := by
    simp only [jsMulMillion, jsGtInt, decide_eq_false_iff_not, not_lt]
    norm_num
  have hv : validateTransfer offCurveAddr (JSNum.finite 10) 100000000 = none := by
    unfold validateTransfer
    rw [if_neg h1, if_neg (by simp [h2]), if_neg (by simp [h3]), if_neg (by simp [h4])]
  exact ⟨by decide, by decide, by decide, hv, by simp [hv]⟩

/-- C5 (amended): a 32-byte base-58 string that is not on the curve is
rejected by `validateSolanaAddress` (the address validation used to gate form
submission), but `validateTransfer`'s decode step accepts it — it can never
return `InvalidRecipient` for such a string, and with an admissible amount and
balance it returns `Ok`. -/
theorem c5_offcurve_rejected_only_by_address_validation (s : String) (bs : List ℕ)
    (hdec : b58DecodeBytes s = some bs) (hlen : bs.length = 32)
    (hcurve : isOnCurve bs = false) (a : JSNum) (b : ℤ) :
    validateSolanaAddress s = false ∧
    validateTransfer s a b ≠ some msgInvalidRecipient := by
  constructor
  · unfold validateSolanaAddress
    by_cases hs : s = ""
    · simp [hs]
    · simp [hs, hdec, hlen, hcurve]
  · have hpk : publicKeyCtorOk s = true := by
      unfold publicKeyCtorOk
      simp [hdec, hlen]
    unfold validateTransfer
    by_cases h1 : s = "" ∨ jsTrim s = ""
    · simp only [h1, if_true]
      decide
    · rw [if_neg h1, if_neg (by simp [hpk])]
      by_cases h3 : jsLeZero a
      · simp only [h3, if_true]
        decide
      · rw [if_neg (by simp [h3])]
        by_cases h4 : jsGtInt (jsMulMillion a) b
        · simp only [h4, if_true]
          decide
        · rw [if_neg (by simp [h4])]
          simp

/-- C5 witness: the amended statement evaluated at `offCurveAddr` with amount
`10` and balance `100000000`. -/
theorem c5_offcurve_witness :
    validateSolanaAddress offCurveAddr = false ∧
    validateTransfer offCurveAddr (JSNum.finite 10) 100000000 ≠ some msgInvalidRecipient :=
  c5_offcurve_rejected_only_by_address_validation offCurveAddr (2 :: List.replicate 31 0)
    (by decide) (by decide) (by decide) (JSNum.finite 10) 100000000

/-! ## digit rendering and parsing lemmas -/

/-- Evaluating the digit fold after appending one character. -/
theorem parseDigitsVal_append_singleton (xs : List Char) (c : Char) :
    parseDigitsVal (xs ++ [c]) = parseDigitsVal xs * 10 + charDigit c := by
  simp [parseDigitsVal, List.foldl_append]

/-- Reading back a digit character below 10. -/
theorem charDigit_digitChar {d : ℕ} (h : d < 10) : charDigit (digitChar d) = d := by
  interval_cases d <;> decide

/-- Digit characters are never the decimal point. -/
theorem digitChar_ne_dot (d : ℕ) : digitChar d ≠ '.' := by
  unfold digitChar
  have h : d % 10 < 10 := Nat.mod_lt _ (by norm_num)
  set k := d % 10 with hk
  interval_cases k <;> decide

/-- Parsing the rendered digits of `n` recovers `n` (fuelled form). -/
theorem parse_natDigitsAux (fuel : ℕ) : ∀ n, n ≤ fuel →
    parseDigitsVal ((natDigitsAux fuel n).map digitChar) = n := by
  induction fuel with
  | zero =>
    intro n hn
    interval_cases n
    decide
  | succ f ih =>
    intro n hn
    unfold natDigitsAux
    by_cases h : n < 10
    · rw [if_pos h]
      simp [parseDigitsVal, charDigit_digitChar h]
    · rw [if_neg h]
      have hrw : (natDigitsAux f (n / 10) ++ [n % 10]).map digitChar
          = (natDigitsAux f (n / 10)).map digitChar ++ [digitChar (n % 10)] := by simp
      have h10 : n / 10 ≤ f := by
        have hlt : n / 10 < n := Nat.div_lt_self (by omega) (by norm_num)
        omega
      rw [hrw, parseDigitsVal_append_singleton, ih _ h10,
        charDigit_digitChar (Nat.mod_lt _ (by norm_num))]
      omega

/-- Parsing the decimal rendering of `n` recovers `n`. -/
theorem parse_natChars (n : ℕ) : parseDigitsVal (natChars n) = n :=
  parse_natDigitsAux (n + 1) n (Nat.le_succ n)

/-- The decimal rendering contains no decimal point. -/
theorem natChars_ne_dot (n : ℕ) : ∀ c ∈ natChars n, c ≠ '.' := by
  intro c hc
  simp only [natChars, List.mem_map] at hc
  obtain ⟨d, _, rfl⟩ := hc
  exact digitChar_ne_dot d

/-- The fixed-length fraction rendering has exactly `d` characters. -/
theorem fracChars_length (v d : ℕ) : (fracChars v d).length = d := by
  simp [fracChars]

/-- The fraction rendering contains no decimal point. -/
theorem fracChars_ne_dot (v d : ℕ) : ∀ c ∈ fracChars v d, c ≠ '.' := by
  intro c hc
  simp only [fracChars, List.mem_map] at hc
  obtain ⟨i, _, rfl⟩ := hc
  exact digitChar_ne_dot _

/-- Parsing the fixed-length fraction rendering recovers the value. -/
theorem parse_fracChars : ∀ d v, v < 10 ^ d → parseDigitsVal (fracChars v d) = v := by
  intro d
  induction d with
  | zero =>
    intro v hv
    interval_cases v
    decide
  | succ d ih =>
    intro v hv
    unfold fracChars
    rw [List.range_succ, List.map_append]
    have hlast : (List.map (fun i => digitChar (v / 10 ^ (d + 1 - 1 - i) % 10)) [d])
        = [digitChar (v % 10)] := by
      simp
    have hinit : (List.range d).map (fun i => digitChar (v / 10 ^ (d + 1 - 1 - i) % 10))
        = fracChars (v / 10) d := by
      unfold fracChars
      apply List.map_congr_left
      intro i hi
      rw [List.mem_range] at hi
      have he : d + 1 - 1 - i = (d - 1 - i) + 1 := by omega
      rw [he, pow_succ, Nat.mul_comm, ← Nat.div_div_eq_div_mul]
    have hv10 : v / 10 < 10 ^ d := by
      apply Nat.div_lt_of_lt_mul
      rw [Nat.mul_comm 10 (10 ^ d), ← pow_succ]
      exact hv
    rw [hlast, hinit, parseDigitsVal_append_singleton, ih _ hv10,
      charDigit_digitChar (Nat.mod_lt _ (by norm_num))]
    omega

/-- `takeWhile (· ≠ '.')` keeps exactly the prefix before the separating dot. -/
theorem takeWhile_not_dot_append (l₁ l₂ : List Char) (h : ∀ c ∈ l₁, c ≠ '.') :
    (l₁ ++ '.' :: l₂).takeWhile (· ≠ '.') = l₁ := by
  induction l₁ with
  | nil => simp [List.takeWhile_cons]
  | cons a t ih =>
    have ha : a ≠ '.' := h a (by simp)
    have ht : ∀ c ∈ t, c ≠ '.' := fun c hc => h c (by simp [hc])
    simp [List.takeWhile_cons, ha]
    simpa using ih ht

/-- `dropWhile (· ≠ '.')` drops exactly the prefix before the separating dot. -/
theorem dropWhile_not_dot_append (l₁ l₂ : List Char) (h : ∀ c ∈ l₁, c ≠ '.') :
    (l₁ ++ '.' :: l₂).dropWhile (· ≠ '.') = '.' :: l₂ := by
  induction l₁ with
  | nil => simp [List.dropWhile_cons]
  | cons a t ih =>
    have ha : a ≠ '.' := h a (by simp)
    have ht : ∀ c ∈ t, c ≠ '.' := fun c hc => h c (by simp [hc])
    simp [List.dropWhile_cons, ha]
    simpa using ih ht

/-- Parsing a rendered `whole.frac` numeral recovers the exact rational. -/
theorem parseDecimal_render (a v d : ℕ) (hv : v < 10 ^ d) :
    parseDecimal (String.mk (natChars a ++ '.' :: fracChars v d)) = (a : ℚ) + (v : ℚ) / 10 ^ d := by
  unfold parseDecimal
  rw [show (String.mk (natChars a ++ '.' :: fracChars v d)).data
      = natChars a ++ '.' :: fracChars v d from rfl]
  rw [takeWhile_not_dot_append _ _ (natChars_ne_dot a),
    dropWhile_not_dot_append _ _ (natChars_ne_dot a)]
  simp only [List.drop_succ_cons, List.drop_zero, parse_natChars,
    parse_fracChars d v hv, fracChars_length]

/-- `toFixed` at a value that is exactly representable at `d` fractional
digits renders without rounding. -/
theorem toFixed_exact (k d : ℕ) :
    toFixed ((k : ℚ) / 10 ^ d) d
      = String.mk (natChars (k / 10 ^ d) ++ '.' :: fracChars (k % 10 ^ d) d) := by
  unfold toFixed roundHalfUp
  have h1 : ((k : ℚ) / 10 ^ d) * 10 ^ d = (k : ℚ) := by
    field_simp
  rw [h1]
  have h2 : ⌊(k : ℚ) + 1 / 2⌋ = (k : ℤ) := by
    rw [show ((k : ℚ)) = ((k : ℤ) : ℚ) by push_cast; ring]
    rw [add_comm, Int.floor_add_int]
    norm_num
  rw [h2]
  simp

/-- The fraction recombines: `whole + frac / 10^d = k / 10^d`. -/
theorem div_mod_recombine (k d : ℕ) :
    ((k / 10 ^ d : ℕ) : ℚ) + ((k % 10 ^ d : ℕ) : ℚ) / 10 ^ d = (k : ℚ) / 10 ^ d := by
  have hnat : k / 10 ^ d * 10 ^ d + k % 10 ^ d = k := Nat.div_add_mod' k (10 ^ d)
  have hcast : ((k / 10 ^ d : ℕ) : ℚ) * 10 ^ d + ((k % 10 ^ d : ℕ) : ℚ) = (k : ℚ) := by
    exact_mod_cast hnat
  field_simp
  linarith [hcast]

/-- Formatting `k / 10^dd` at `dd` digits, parsing back and scaling to `s ≥ dd`
fractional digits recovers `k * 10^(s - dd)` exactly. -/
theorem roundTrip_exact (k s dd : ℕ) (hds : dd ≤ s) :
    toSmallestUnits (parseDecimal (toFixed ((k : ℚ) / 10 ^ dd) dd)) s
      = ((k * 10 ^ (s - dd) : ℕ) : ℤ) := by
  rw [toFixed_exact, parseDecimal_render _ _ _ (Nat.mod_lt _ (by positivity)),
    div_mod_recombine]
  unfold toSmallestUnits
  have hval : (k : ℚ) / 10 ^ dd * 10 ^ s = ((k * 10 ^ (s - dd) : ℕ) : ℚ) := by
    rw [show s = dd + (s - dd) from (Nat.add_sub_cancel' hds).symm, pow_add]
    push_cast
    field_simp
    ring
  rw [hval, Int.floor_natCast]

/-- `formatBalance 0` for both tokens, evaluated. -/
theorem formatBalance_zero :
    formatBalance 0 Token.SOL = "0.0000" ∧ formatBalance 0 Token.USDC = "0.00" := by
  constructor
  · show toFixed (((0 : ℕ) : ℚ) / (LAMPORTS_PER_SOL : ℕ)) SOL_DISPLAY_DECIMALS = "0.0000"
    rw [show (((0 : ℕ) : ℚ) / (LAMPORTS_PER_SOL : ℕ)) = ((0 : ℕ) : ℚ) / 10 ^ 4 by norm_num]
    rw [show SOL_DISPLAY_DECIMALS = 4 from rfl, toFixed_exact 0 4]
    decide
  · show toFixed (((0 : ℕ) : ℚ) / 10 ^ USDC_DECIMALS) USDC_DISPLAY_DECIMALS = "0.00"
    rw [show (((0 : ℕ) : ℚ) / 10 ^ USDC_DECIMALS) = ((0 : ℕ) : ℚ) / 10 ^ 2 by norm_num]
    rw [show USDC_DISPLAY_DECIMALS = 2 from rfl, toFixed_exact 0 2]
    decide

/-- The rendered string of `toFixed` always has exactly `d` characters after
the decimal point. -/
theorem digitsAfterDot_toFixed (x : ℚ) (d : ℕ) : digitsAfterDot (toFixed x d) = d := by
  unfold toFixed
  generalize (roundHalfUp (x * 10 ^ d)).toNat = m
  unfold digitsAfterDot
  rw [show (String.mk (natChars (m / 10 ^ d) ++ '.' :: fracChars (m % 10 ^ d) d)).data
      = natChars (m / 10 ^ d) ++ '.' :: fracChars (m % 10 ^ d) d from rfl]
  rw [List.reverse_append, List.reverse_cons, List.append_assoc, List.singleton_append]
  have hrev : ∀ c ∈ (fracChars (m % 10 ^ d) d).reverse, c ≠ '.' := by
    intro c hc
    rw [List.mem_reverse] at hc
    exact fracChars_ne_dot _ _ c hc
  rw [takeWhile_not_dot_append _ _ hrev, List.length_reverse, fracChars_length]

/-! ## formatting theorems (C3, C4) -/

/-- C3 (counterexample): formatting at the token's scale is claimed to emit
`scale ∈ {6, 9}` fractional digits and render zero as `0` followed by `scale`
zeros; but `formatBalance 0 USDC` is `"0.00"` — two fractional digits, not
six. -/
theorem c3_counterexample_display_digits :
    formatBalance 0 Token.USDC = "0.00" ∧
    digitsAfterDot (formatBalance 0 Token.USDC) = 2 ∧
    formatBalance 0 Token.USDC ≠ "0.000000" ∧ (2 : ℕ) ≠ 6 := by
  have h := formatBalance_zero.2
  refine ⟨h, ?_, ?_, by decide⟩
  · rw [h]
    decide
  · rw [h]
    decide

/-- C3 (amended): `formatBalance` renders with the token's fixed display
precision — 4 fractional digits for SOL, 2 for USDC — for every smallest-unit
amount, and zero renders as `"0.0000"` / `"0.00"` respectively. -/
theorem c3_fixed_display_precision :
    (∀ (n : ℕ) (t : Token), digitsAfterDot (formatBalance n t) = displayDecimals t) ∧
    formatBalance 0 Token.SOL = "0.0000" ∧ formatBalance 0 Token.USDC = "0.00" := by
  refine ⟨?_, formatBalance_zero.1, formatBalance_zero.2⟩
  intro n t
  cases t
  · exact digitsAfterDot_toFixed _ _
  · exact digitsAfterDot_toFixed _ _

/-- C4 (counterexample): the format-then-reparse round trip does not recover
every representable smallest-unit amount: `1234567` USDC units format to
`"1.23"` (display precision 2), which re-parses to `1230000 ≠ 1234567`. -/
theorem c4_counterexample_round_trip :
    roundTripUnits 1234567 Token.USDC = 1230000 ∧ (1230000 : ℤ) ≠ 1234567 := by
  constructor
  · show toSmallestUnits
      (parseDecimal (toFixed (((1234567 : ℕ) : ℚ) / 10 ^ USDC_DECIMALS) USDC_DISPLAY_DECIMALS))
      (tokenScale Token.USDC) = 1230000
    have hval : (((1234567 : ℕ) : ℚ) / 10 ^ USDC_DECIMALS) = (1234567 : ℚ) / 10 ^ 6 := by
      norm_num [USDC_DECIMALS]
    have hfix : toFixed ((1234567 : ℚ) / 10 ^ 6) 2 = "1.23" := by
      unfold toFixed
      rw [show roundHalfUp ((1234567 : ℚ) / 10 ^ 6 * 10 ^ 2) = 123 by
        unfold roundHalfUp
        norm_num]
      decide
    rw [hval, show USDC_DISPLAY_DECIMALS = 2 from rfl, hfix]
    rw [show ("1.23" : String) = String.mk (natChars 1 ++ '.' :: fracChars 23 2) from by decide]
    rw [parseDecimal_render 1 23 2 (by norm_num)]
    unfold toSmallestUnits tokenScale USDC_DECIMALS
    norm_num
  · decide

/-- C4 (amended): the round trip recovers `n` exactly when `n` is representable
at the token's display precision, i.e. when `10^(scale - displayDecimals)`
(`10^5` for SOL, `10^4` for USDC) divides `n`; the counterexample shows it
fails otherwise. -/
theorem c4_round_trip_display_representable (n : ℕ) (t : Token)
    (h : 10 ^ (tokenScale t - displayDecimals t) ∣ n) :
    roundTripUnits n t = (n : ℤ) := by
  obtain ⟨k, hk⟩ := h
  cases t
  · have hk5 : n = 10 ^ 5 * k := by
      simpa [tokenScale, displayDecimals, SOL_DISPLAY_DECIMALS] using hk
    subst hk5
    show toSmallestUnits
      (parseDecimal (toFixed (((10 ^ 5 * k : ℕ) : ℚ) / (LAMPORTS_PER_SOL : ℕ))
        SOL_DISPLAY_DECIMALS)) (tokenScale Token.SOL) = _
    have hval : (((10 ^ 5 * k : ℕ) : ℚ) / (LAMPORTS_PER_SOL : ℕ)) = ((k : ℕ) : ℚ) / 10 ^ 4 := by
      unfold LAMPORTS_PER_SOL
      push_cast
      field_simp
      ring
    rw [hval, show SOL_DISPLAY_DECIMALS = 4 from rfl,
      show tokenScale Token.SOL = 9 from rfl, roundTrip_exact k 9 4 (by norm_num)]
    push_cast
    ring
  · have hk4 : n = 10 ^ 4 * k := by
      simpa [tokenScale, displayDecimals, USDC_DISPLAY_DECIMALS, USDC_DECIMALS] using hk
    subst hk4
    show toSmallestUnits
      (parseDecimal (toFixed (((10 ^ 4 * k : ℕ) : ℚ) / 10 ^ USDC_DECIMALS)
        USDC_DISPLAY_DECIMALS)) (tokenScale Token.USDC) = _
    have hval : (((10 ^ 4 * k : ℕ) : ℚ) / 10 ^ USDC_DECIMALS) = ((k : ℕ) : ℚ) / 10 ^ 2 := by
      unfold USDC_DECIMALS
      push_cast
      field_simp
      ring
    rw [hval, show USDC_DISPLAY_DECIMALS = 2 from rfl,
      show tokenScale Token.USDC = 6 from rfl, roundTrip_exact k 6 2 (by norm_num)]
    push_cast
    ring

/-- C4 witness: the amended round trip evaluated at `500000` USDC units
(a multiple of `10^4`). -/
theorem c4_round_trip_witness : roundTripUnits 500000 Token.USDC = (500000 : ℤ) :=
  c4_round_trip_display_representable 500000 Token.USDC ⟨50, rfl⟩

/-! ## classifier theorems (C7, C8) -/

/-- Every record the instruction scan produces carries the signature,
timestamp and status computed from the envelope. -/
theorem scanInstructions_fields (w : String) (sig : Option String) (ts : ℤ)
    (status : TxStatus) :
    ∀ (l : List RawInstruction) (r : TransactionRec),
      scanInstructions w sig ts status l = some r →
      r.signature = sig ∧ r.timestamp = ts ∧ r.status = status := by
  intro l
  induction l with
  | nil => intro r hr; simp [scanInstructions] at hr
  | cons i rest ih =>
    intro r hr
    unfold scanInstructions at hr
    split at hr
    · split at hr
      · obtain rfl := Option.some_injective _ hr
        exact ⟨rfl, rfl, rfl⟩
      · split at hr
        · obtain rfl := Option.some_injective _ hr
          exact ⟨rfl, rfl, rfl⟩
        · exact ih r hr
    · exact ih r hr

/-- When no instruction has a recognised transfer shape, the scan finds
nothing. -/
theorem scanInstructions_none (w : String) (sig : Option String) (ts : ℤ)
    (status : TxStatus) :
    ∀ (l : List RawInstruction), (∀ i ∈ l, isTransferShaped i = false) →
      scanInstructions w sig ts status l = none := by
  intro l
  induction l with
  | nil => intro _; rfl
  | cons i rest ih =>
    intro h
    have hi := h i (by simp)
    have hrest : ∀ j ∈ rest, isTransferShaped j = false := fun j hj => h j (by simp [hj])
    unfold scanInstructions
    split
    case h_2 => exact ih hrest
    case h_1 p heq =>
      unfold isTransferShaped at hi
      rw [heq] at hi
      simp only [decide_eq_false_iff_not, not_and, not_or] at hi
      by_cases ht : p.ptype = "transfer"
      · obtain ⟨hsys, hspl⟩ := hi ht
        rw [if_neg (by simp [hsys]), if_neg (by simp [hspl])]
        exact ih hrest
      · rw [if_neg (by simp [ht]), if_neg (by simp [ht])]
        exact ih hrest

/-- C7 (counterexample): `timestamp` is not copied verbatim.  For a parseable
record with envelope `blockTime = 5` the classifier emits `timestamp = 5000`
(seconds scaled to milliseconds), and with no `blockTime` it substitutes the
classification-time clock value (`999` here) — both contradicting the claim
that the field carries the same value as the input record with no unit
conversion and no substitution of a value computed at classification time.
(`signature` is indeed copied verbatim; that half survives in the amended
claim.) -/
theorem c7_counterexample_timestamp_converted :
    parseTransaction 999 rawRecordUnknown "w" = some c7rec ∧
    rawRecordUnknown.blockTime = some 5 ∧ c7rec.timestamp = 5000 ∧ (5000 : ℤ) ≠ 5 ∧
    parseTransaction 999 rawRecordNoBlockTime "w" = some { c7rec with timestamp := 999 } := by
  refine ⟨?_, rfl, rfl, by decide, ?_⟩ <;> decide

/-- C7 (amended): for every record the classifier accepts, `signature` is
copied verbatim (the envelope's first signature) while `timestamp` is the
envelope's `blockTime` scaled from seconds to milliseconds when present and
non-zero, and otherwise the clock value sampled at classification time. -/
theorem c7_signature_verbatim_timestamp_scaled (now : ℤ) (tx : RawRecord) (w : String)
    (t : TransactionRec) (env : RawEnvelope) (henv : tx.transaction = some env)
    (h : parseTransaction now tx w = some t) :
    t.signature = env.signatures.head? ∧ t.timestamp = jsTimestampOf now tx.blockTime := by
  unfold parseTransaction at h
  cases hm : tx.meta with
  | none => rw [hm, henv] at h; exact absurd h (by simp)
  | some m =>
    simp only [hm, henv] at h
    cases hscan : scanInstructions w env.signatures.head? (jsTimestampOf now tx.blockTime)
        (if m.err then TxStatus.failed else TxStatus.confirmed) env.message.instructions with
    | some r =>
      simp only [hscan] at h
      obtain rfl := Option.some_injective _ h
      have hf := scanInstructions_fields w env.signatures.head?
        (jsTimestampOf now tx.blockTime)
        (if m.err then TxStatus.failed else TxStatus.confirmed)
        env.message.instructions r hscan
      exact ⟨hf.1, hf.2.1⟩
    | none =>
      simp only [hscan] at h
      obtain rfl := Option.some_injective _ h
      exact ⟨rfl, rfl⟩

/-- C7 witness: the amended statement at the concrete unknown-shape record. -/
theorem c7_envelope_witness :
    c7rec.signature = (RawEnvelope.mk ["sigX"] (RawMessage.mk [])).signatures.head? ∧
    c7rec.timestamp = jsTimestampOf 999 rawRecordUnknown.blockTime :=
  c7_signature_verbatim_timestamp_scaled 999 rawRecordUnknown "w" c7rec
    (RawEnvelope.mk ["sigX"] (RawMessage.mk [])) (by decide) (by decide)

/-- C8: a record with no metadata or no transaction envelope (the carrier of
the instruction list) classifies to `none`; a parseable record none of whose
instructions has a recognised transfer shape is not dropped: it classifies to
a record with direction `unknown`, amount `0` and empty counterparty, the
remaining fields still derived from the envelope. -/
theorem c8_unparseable_none_unknown_kept (now : ℤ) (tx : RawRecord) (w : String) :
    ((tx.meta = none ∨ tx.transaction = none) → parseTransaction now tx w = none) ∧
    (∀ (m : RawMeta) (env : RawEnvelope), tx.meta = some m → tx.transaction = some env →
      (∀ i ∈ env.message.instructions, isTransferShaped i = false) →
      parseTransaction now tx w =
        some { signature := env.signatures.head?
               ttype := .unknown
               amount := 0
               token := .SOL
               counterparty := some ""
               timestamp := jsTimestampOf now tx.blockTime
               status := if m.err then .failed else .confirmed }) := by
  constructor
  · intro h
    unfold parseTransaction
    cases hm : tx.meta with
    | none => cases tx.transaction <;> rfl
    | some m =>
      cases ht : tx.transaction with
      | none => rfl
      | some env =>
        rcases h with h | h
        · rw [hm] at h; exact absurd h (by simp)
        · rw [ht] at h; exact absurd h (by simp)
  · intro m env hm henv hshape
    unfold parseTransaction
    simp only [hm, henv]
    rw [scanInstructions_none w env.signatures.head? (jsTimestampOf now tx.blockTime)
      (if m.err then TxStatus.failed else TxStatus.confirmed)
      env.message.instructions hshape]

/-- C8 witness: evaluated at a record with no metadata and at a record whose
single instruction is a non-transfer (`mintTo`) instruction. -/
theorem c8_classifier_witness :
    parseTransaction 999 rawRecordNoMeta "w" = none ∧
    parseTransaction 999 rawRecordNonTransfer "w" =
      some { signature := some "sigZ"
             ttype := .unknown
             amount := 0
             token := .SOL
             counterparty := some ""
             timestamp := 11000
             status := .failed } := by
  constructor
  · exact (c8_unparseable_none_unknown_kept 999 rawRecordNoMeta "w").1 (Or.inl rfl)
  · have h := (c8_unparseable_none_unknown_kept 999 rawRecordNonTransfer "w").2
      (RawMeta.mk true)
      (RawEnvelope.mk ["sigZ"] (RawMessage.mk [RawInstruction.mk "spl-token"
        (some (ParsedPayload.mk "mintTo"
          (TransferInfo.mk none none none 0 3)))]))
      rfl rfl (by decide)
    simpa using h

/-! ## state machine theorems (C9) -/

/-- The submit guard evaluated at the witness inputs. -/
theorem isFormValid_c9_inputs :
    isFormValid 100000000
      (CState.mk onCurveAddr "10" TState.idle none none none 0) = true := by
  have hpd : parseDecimal "10" = 10 := by
    rw [show parseDecimal "10" = ((10 : ℕ) : ℚ) + ((0 : ℕ) : ℚ) / 10 ^ (0 : ℕ) from rfl]
    norm_num
  have hpf : jsParseFloat "10" = JSNum.finite 10 := by
    unfold jsParseFloat
    rw [if_pos (by decide), hpd]
  unfold isFormValid
  rw [hpf, decide_eq_true_eq]
  refine ⟨by decide, by decide, by decide, ?_⟩
  show jsLeInt (JSNum.finite (10 * 1000000)) 100000000 = true
  simp only [jsLeInt, decide_eq_true_eq]
  push_cast
  norm_num

/-- C9 (counterexample): the claimed invariant — in `Confirming` the stored
signature is always empty — fails on the program.  The failure toast's `Retry`
(`showError(message, () => setTransferState('confirming'))`) stays clickable
for its 4-second lifetime above the modals and carries no state guard, so the
machine can run: submit → confirm → failure (retry toast now live) → modal
`Try Again` → confirm → success (`txSignature` set) → click the still-live
toast `Retry` — reaching `confirming` with the prior attempt's signature
retained. -/
theorem c9_counterexample_toast_retry_stale_signature :
    CompReachable 100000000 c9badState ∧
    c9badState.transferState = TState.confirming ∧
    c9badState.txSignature = some "sig1" ∧ some "sig1" ≠ (none : Option String) := by
  refine ⟨?_, rfl, rfl, by decide⟩
  have r0 : CompReachable 100000000 initialCState := CompReachableVia.init
  have r1 : CompReachable 100000000 { initialCState with recipient := onCurveAddr } :=
    CompReachableVia.step r0 trivial
      (CompStep.setRecipient initialCState onCurveAddr (by decide))
  have r2 : CompReachable 100000000
      { { initialCState with recipient := onCurveAddr } with amount := "10" } :=
    CompReachableVia.step r1 trivial (CompStep.setAmount _ "10" (by decide))
  have r3 : CompReachable 100000000
      (CState.mk onCurveAddr "10" TState.confirming none none none 0) :=
    CompReachableVia.step r2 trivial (CompStep.submit _ rfl isFormValid_c9_inputs)
  have r4 : CompReachable 100000000
      (CState.mk onCurveAddr "10" TState.processing none none none 0) :=
    CompReachableVia.step r3 trivial (CompStep.beginProcessing _ rfl)
  have r5 : CompReachable 100000000
      (CState.mk onCurveAddr "10" TState.error none (some "boom") none 1) :=
    CompReachableVia.step r4 trivial (CompStep.finishFailure _ "boom" rfl)
  have r6 : CompReachable 100000000
      (CState.mk onCurveAddr "10" TState.confirming none (some "boom") none 1) :=
    CompReachableVia.step r5 trivial (CompStep.errorRetry _ rfl)
  have r7 : CompReachable 100000000
      (CState.mk onCurveAddr "10" TState.processing none none none 1) :=
    CompReachableVia.step r6 trivial (CompStep.beginProcessing _ rfl)
  have r8 : CompReachable 100000000
      (CState.mk onCurveAddr "10" TState.success none none (some "sig1") 1) :=
    CompReachableVia.step r7 trivial (CompStep.finishSuccess _ "sig1" rfl)
  exact CompReachableVia.step r8 trivial (CompStep.toastRetry _ (by decide))

/-- C9 (amended): the error modal's `Try Again` — and every other transition
except a live failure toast's `Retry` — preserves the no-stale-signature
property: in every state reachable without firing `toastRetry`, being in
`confirming` implies the stored signature is empty.  (A failed attempt never
stores a signature and `success` then exits only through `resetForm`.)  The
counterexample shows the unguarded toast `Retry` is exactly the transition
that breaks it. -/
theorem c9_modal_retry_signature_cleared (bal : ℤ) (s : CState)
    (h : CompReachableVia bal (fun e => e ≠ CompEvent.toastRetry) s)
    (hc : s.transferState = TState.confirming) :
    s.txSignature = none := by
  have key : ∀ (s' : CState), CompReachableVia bal (fun e => e ≠ CompEvent.toastRetry) s' →
      s'.transferState ≠ TState.success → s'.txSignature = none := by
    intro s' h'
    induction h' with
    | init => intro _; rfl
    | step hr hallow hstep ih =>
      intro hne
      cases hstep
      all_goals first
        | exact ih hne
        | rfl
        | exact absurd rfl hne
        | exact absurd rfl hallow
        | (rename_i hg
           exact ih (by rw [hg]; decide))
        | (rename_i h₁ h₂
           exact ih (by rw [h₁]; decide))
  exact key s h (by rw [hc]; decide)

/-- C9 witness: the amended invariant applied to a concrete `confirming` state
reached without any toast retry (enter the recipient and amount, then submit a
valid form). -/
theorem c9_modal_retry_witness : c9state.txSignature = none := by
  have r0 : CompReachableVia 100000000 (fun e => e ≠ CompEvent.toastRetry) initialCState :=
    CompReachableVia.init
  have r1 : CompReachableVia 100000000 (fun e => e ≠ CompEvent.toastRetry)
      { initialCState with recipient := onCurveAddr } :=
    CompReachableVia.step r0 (by decide)
      (CompStep.setRecipient initialCState onCurveAddr (by decide))
  have r2 : CompReachableVia 100000000 (fun e => e ≠ CompEvent.toastRetry)
      { { initialCState with recipient := onCurveAddr } with amount := "10" } :=
    CompReachableVia.step r1 (by decide) (CompStep.setAmount _ "10" (by decide))
  have r3 : CompReachableVia 100000000 (fun e => e ≠ CompEvent.toastRetry) c9state :=
    CompReachableVia.step r2 (by decide) (CompStep.submit _ rfl isFormValid_c9_inputs)
  exact c9_modal_retry_signature_cleared 100000000 c9state r3 rfl
